import Mathlib

/-!
Verification development for `national_map_with_filters.py`, a single-pass
extract-transform-export pipeline: it parses project rows out of an HTML
document, extracts coordinates and costs from free text, exports the records
to a spreadsheet, and renders a map with cost-band colored markers grouped
into toggleable layers.

Modelling conventions:
* Python strings are Lean `String` (text manipulation happens on `String.data`,
  the underlying `List Char`).
* Numbers (`float` values, costs, coordinates) are exact rationals `ℚ`;
  the decimal literals in play are small and the example equalities of the spec are
  stated at decimal precision.
* Digit and whitespace character classes are modelled over the ASCII range
  that the input format uses (`Char.isDigit` for `[0-9]` and `str.isdigit`,
  an explicit ASCII whitespace set for `\s`).
* The regex search in `extract_coordinates` is embedded as an explicit
  leftmost-position, greedy-with-backtracking matcher for the one fixed
  pattern the program uses.
-/

/-- ASCII whitespace, modelling the regex class `\s` on the inputs in scope
(space, tab, newline, vertical tab, form feed, carriage return). -/
def pyIsSpace (c : Char) : Bool :=
  decide (c = ' ') || decide (c = '\t') || decide (c = '\n') ||
  decide (c = Char.ofNat 11) || decide (c = Char.ofNat 12) || decide (c = '\r')

/-- Greedy Kleene star over a character class with backtracking: consume as
many class characters as possible, retrying the continuation `k` on ever
shorter consumptions (longest first), exactly as a backtracking regex engine
runs `cls*`. -/
def tryStar {α : Type} (cls : Char → Bool) : List Char → (List Char → Option α) → Option α
  | [], k => k []
  | c :: cs, k =>
    if cls c then (tryStar cls cs k).orElse (fun _ => k (c :: cs)) else k (c :: cs)

/-- Greedy `cls+`: at least one class character, then greedy star. -/
def tryPlus {α : Type} (cls : Char → Bool) (s : List Char) (k : List Char → Option α) :
    Option α :=
  match s with
  | [] => none
  | c :: cs => if cls c then tryStar cls cs k else none

/-- Greedy optional single character `c?`: try consuming it first, then not. -/
def tryOptChar {α : Type} (ch : Char) (s : List Char) (k : List Char → Option α) :
    Option α :=
  match s with
  | [] => k []
  | c :: cs => if decide (c = ch) then (k cs).orElse (fun _ => k (c :: cs)) else k (c :: cs)

/-- Greedy optional sign `[-+]?`. -/
def trySign {α : Type} (s : List Char) (k : List Char → Option α) : Option α :=
  match s with
  | [] => k []
  | c :: cs =>
    if decide (c = '-') || decide (c = '+') then (k cs).orElse (fun _ => k (c :: cs))
    else k (c :: cs)

/-- The number subpattern `[-+]?[0-9]*\.?[0-9]+` of the coordinate regex,
in continuation style: `k` receives the unconsumed rest. -/
def tryNumber {α : Type} (s : List Char) (k : List Char → Option α) : Option α :=
  trySign s (fun s1 =>
    tryStar Char.isDigit s1 (fun s2 =>
      tryOptChar '.' s2 (fun s3 =>
        tryPlus Char.isDigit s3 k)))

/-- Attempt to match the full pattern
`\(([-+]?[0-9]*\.?[0-9]+)\s*,\s*([-+]?[0-9]*\.?[0-9]+)\)` at the start of
`s`, returning the two captured groups on success. Captures are recovered as
the prefix consumed by each number subpattern. -/
def tryCoordMatch (s : List Char) : Option (List Char × List Char) :=
  match s with
  | '(' :: s1 =>
    tryNumber s1 (fun r1 =>
      let g1 := s1.take (s1.length - r1.length)
      tryStar pyIsSpace r1 (fun r2 =>
        match r2 with
        | ',' :: r3 =>
          tryStar pyIsSpace r3 (fun r4 =>
            tryNumber r4 (fun r5 =>
              let g2 := r4.take (r4.length - r5.length)
              match r5 with
              | ')' :: _ => some (g1, g2)
              | _ => none))
        | _ => none))
  | _ => none

/-- Model of `re.search` for the coordinate pattern: try each start position from the
left; the leftmost successful match wins. -/
def searchCoord : List Char → Option (List Char × List Char)
  | [] => none
  | c :: rest => (tryCoordMatch (c :: rest)).orElse (fun _ => searchCoord rest)

/-- Numeric value of a digit string, most significant first. -/
def digitsVal (l : List Char) : ℕ :=
  l.foldl (fun a c => a * 10 + (c.toNat - 48)) 0

/-- Value of an unsigned decimal literal `digits[.digits]` as a rational. -/
def pyFloatAbs (t : List Char) : ℚ :=
  match t.dropWhile (fun c => decide (c ≠ '.')) with
  | [] => (digitsVal t : ℚ)
  | _ :: frac =>
    (digitsVal (t.takeWhile (fun c => decide (c ≠ '.'))) : ℚ) +
      (digitsVal frac : ℚ) / (10 : ℚ) ^ frac.length

/-- Python `float()` on a decimal string of the shape the program feeds it
(optional sign, digits, optional fraction), as an exact rational. -/
def pyFloat (t : List Char) : ℚ :=
  match t with
  | [] => pyFloatAbs []
  | c :: u =>
    if c = '-' then -(pyFloatAbs u)
    else if c = '+' then pyFloatAbs u
    else pyFloatAbs (c :: u)

/-- Function `extract_coordinates` (lines 12–16): search the location string for the
coordinate pattern; on a match return the two captured numbers as floats
`(latitude, longitude)`, otherwise `(None, None)`. -/
def extract_coordinates (s : String) : Option ℚ × Option ℚ :=
  match searchCoord s.data with
  | some (g1, g2) => (some (pyFloat g1), some (pyFloat g2))
  | none => (none, none)

/-- Cleanup of the cost text (line 46): `.replace(",", "").replace("₱", "")`
removes every comma and every peso sign. -/
def stripCostText (s : String) : String :=
  ⟨(s.data.filter (fun c => decide (c ≠ ','))).filter (fun c => decide (c ≠ '₱'))⟩

/-- Python `str.replace(".", "", 1)`: delete the first period only. -/
def removeFirstDot : List Char → List Char
  | [] => []
  | c :: cs => if c = '.' then cs else c :: removeFirstDot cs

/-- Python `str.isdigit()` on the ASCII inputs in scope: non-empty and all
characters in `[0-9]`. -/
def pyIsDigitStr (s : List Char) : Bool :=
  !s.isEmpty && s.all Char.isDigit

/-- Cost parsing (line 47): `float(cost_str) if cost_str.replace(".", "", 1).isdigit() else 0`. -/
def parseCost (s : String) : ℚ :=
  if pyIsDigitStr (removeFirstDot s.data) then pyFloat s.data else 0

/-- Function `get_color` (lines 69–81): cost band to display color, half-open
intervals, below 50M falls through to lightgrey. -/
def get_color (cost : ℚ) : String :=
  if 50000000 ≤ cost ∧ cost < 100000000 then "yellow"
  else if 100000000 ≤ cost ∧ cost < 200000000 then "orange"
  else if 200000000 ≤ cost ∧ cost < 300000000 then "red"
  else if 300000000 ≤ cost ∧ cost < 400000000 then "brown"
  else if 400000000 ≤ cost then "black"
  else "lightgrey"

/-- The detail template matched to a row: the four optional sub-fields, each
holding the `get_text(strip=True)` result of the tag when the structural selector
finds a tag (lines 37–43). -/
structure RawCard where
  location_tag : Option String
  contractor_tag : Option String
  cost_tag : Option String
  start_date_tag : Option String

/-- One project row anchor: its display text and the template found (or not)
for its `data-id` (lines 29–34). -/
structure RawRow where
  project_name : String
  template : Option RawCard

/-- Field `location_string` (line 38): tag text or the default `"Unknown"`. -/
def locationString (card : RawCard) : String :=
  match card.location_tag with
  | some t => t
  | none => "Unknown"

/-- Field `contractor` (line 45): tag text or the default `"N/A"`. -/
def contractorOf (card : RawCard) : String :=
  match card.contractor_tag with
  | some t => t
  | none => "N/A"

/-- Field `cost_str` (line 46): cleaned tag text or the default `"0"`. -/
def costStrOf (card : RawCard) : String :=
  match card.cost_tag with
  | some t => stripCostText t
  | none => "0"

/-- Field `start_date` (line 48): tag text or the default `"Unknown"`. -/
def startDateOf (card : RawCard) : String :=
  match card.start_date_tag with
  | some t => t
  | none => "Unknown"

/-- One extracted project record, the dict appended at lines 51–59. -/
structure ProjectRecord where
  title : String
  contractor : String
  start_date : String
  cost : ℚ
  latitude : ℚ
  longitude : ℚ
  location : String
deriving DecidableEq

/-- The loop body for one row (lines 29–59): skip when no template matches;
otherwise build the fields with their defaults and keep the record only when
both coordinates resolved. -/
def processRow (row : RawRow) : Option ProjectRecord :=
  match row.template with
  | none => none
  | some card =>
    match extract_coordinates (locationString card) with
    | (some la, some lo) =>
      some { title := row.project_name
             contractor := contractorOf card
             start_date := startDateOf card
             cost := parseCost (costStrOf card)
             latitude := la
             longitude := lo
             location := locationString card }
    | _ => none

/-- The full extraction loop: rows in document order, skipped rows dropped. -/
def extractProjects (rows : List RawRow) : List ProjectRecord :=
  rows.filterMap processRow

/-- A spreadsheet cell: text or numeric. -/
inductive Cell where
  | text (s : String)
  | num (q : ℚ)
deriving DecidableEq

/-- Header row of the export: the dict keys in insertion order. -/
def headerRow : List Cell :=
  [ .text ("Title"), .text ("Contractor"), .text ("Start Date"), .text ("Cost"),
    .text ("Latitude"), .text ("Longitude"), .text ("Location")]

/-- One data row of the export: the fields of the record under those columns. -/
def recordRow (p : ProjectRecord) : List Cell :=
  [ .text p.title, .text p.contractor, .text p.start_date, .num p.cost,
    .num p.latitude, .num p.longitude, .text p.location]

/-- The export `pd.DataFrame(projects); df.to_excel(EXCEL_FILE, index=False)`
(lines 61–65): the DataFrame columns are the union of the record dict
keys in first-appearance order, so a non-empty record list yields the fixed
header row followed by one row per record; an empty record list yields a
DataFrame with no columns, hence a sheet with no cells at all (pandas writes
no header when there are no columns). -/
def exportTable (ps : List ProjectRecord) : List (List Cell) :=
  if ps.isEmpty then [] else headerRow :: ps.map recordRow

/-- The five cost-band layer groups (lines 88–94). -/
inductive Band where
  | b50 | b100 | b200 | b300 | b400
deriving DecidableEq

/-- The layer-group key/display name for each band (lines 89–93). -/
def bandName : Band → String
  | .b50 => "50M–100M"
  | .b100 => "100M–200M"
  | .b200 => "200M–300M"
  | .b300 => "300M–400M"
  | .b400 => "400M+"

/-- The marker color belonging to each band, per the legend and `get_color`. -/
def bandColor : Band → String
  | .b50 => "yellow"
  | .b100 => "orange"
  | .b200 => "red"
  | .b300 => "brown"
  | .b400 => "black"

/-- The group-assignment conditional chain (lines 113–122), literally: the
same half-open comparisons as `get_color`, with no `else` branch. -/
def assignGroup (cost : ℚ) : Option Band :=
  if 50000000 ≤ cost ∧ cost < 100000000 then some .b50
  else if 100000000 ≤ cost ∧ cost < 200000000 then some .b100
  else if 200000000 ≤ cost ∧ cost < 300000000 then some .b200
  else if 300000000 ≤ cost ∧ cost < 400000000 then some .b300
  else if 400000000 ≤ cost then some .b400
  else none

/-- One map marker (lines 102–110): position, stroke and fill color both from
`get_color`, and the record data shown in tooltip/popup (the `₱{cost:,.0f}`
display formatting itself is presentational and carried here as the raw
values). -/
structure Marker where
  latitude : ℚ
  longitude : ℚ
  color : String
  fill_color : String
  title : String
  cost : ℚ
deriving DecidableEq

/-- The marker built for one record (lines 98–110). -/
def mkMarker (p : ProjectRecord) : Marker :=
  { latitude := p.latitude
    longitude := p.longitude
    color := get_color p.cost
    fill_color := get_color p.cost
    title := p.title
    cost := p.cost }

/-- Model of `add_child`: append a marker to the group of one band, leaving the others. -/
def addMarker (g : Band → List Marker) (b : Band) (m : Marker) : Band → List Marker :=
  fun b2 => if b2 = b then g b2 ++ [m] else g b2

/-- The marker loop (lines 97–122): fold over the records in order; each
marker of each record is added to the group its conditional chain selects, and to
none when no branch fires. -/
def buildGroups (ps : List ProjectRecord) : Band → List Marker :=
  ps.foldl
    (fun g p =>
      match assignGroup p.cost with
      | some b => addMarker g b (mkMarker p)
      | none => g)
    (fun _ => [])

/-! ## Helper lemmas -/

/-- The marker fold, run from any accumulator, appends exactly the markers of
the records whose conditional chain selects band `b`. -/
lemma buildGroups_go (ps : List ProjectRecord) (g : Band → List Marker) (b : Band) :
    (ps.foldl
      (fun g p =>
        match assignGroup p.cost with
        | some b => addMarker g b (mkMarker p)
        | none => g) g) b =
      g b ++ (ps.filter (fun q => decide (assignGroup q.cost = some b))).map mkMarker := by
  induction ps generalizing g with
  | nil => simp
  | cons p ps ih =>
    simp only [List.foldl_cons, List.filter_cons]
    cases h : assignGroup p.cost with
    | none =>
      rw [ih]
      simp
    | some b1 =>
      rw [ih]
      by_cases hb : b1 = b
      · subst hb
        simp [addMarker]
      · have hb2 : b ≠ b1 := fun e => hb e.symm
        simp [addMarker, hb, hb2]

/-- Characterization of the layer groups: the group of band `b` holds, in record
order, one marker per record the conditional chain assigns to `b`. -/
lemma buildGroups_eq (ps : List ProjectRecord) (b : Band) :
    buildGroups ps b =
      (ps.filter (fun q => decide (assignGroup q.cost = some b))).map mkMarker := by
  rw [buildGroups, buildGroups_go]
  rfl

/-! ## Claim theorems -/

/-- Claim C1: `get_color` is a total function sending each cost to exactly
one of the five bands — [50M,100M) yellow, [100M,200M) orange, [200M,300M)
red, [300M,400M) brown, [400M,∞) black — lower bound inclusive, upper bound
exclusive, and to the unclassified color lightgrey exactly when the cost is
below 50M. -/
theorem get_color_total_bands (c : ℚ) :
    (get_color c = "yellow" ↔ 50000000 ≤ c ∧ c < 100000000) ∧
    (get_color c = "orange" ↔ 100000000 ≤ c ∧ c < 200000000) ∧
    (get_color c = "red" ↔ 200000000 ≤ c ∧ c < 300000000) ∧
    (get_color c = "brown" ↔ 300000000 ≤ c ∧ c < 400000000) ∧
    (get_color c = "black" ↔ 400000000 ≤ c) ∧
    (get_color c = "lightgrey" ↔ c < 50000000) := by
  unfold get_color
  split_ifs with h1 h2 h3 h4 h5
  · obtain ⟨a1, b1⟩ := h1
    exact ⟨⟨fun _ => ⟨a1, b1⟩, fun _ => rfl⟩,
           ⟨fun hx => absurd hx (by decide), fun hx => absurd hx.1 (by linarith)⟩,
           ⟨fun hx => absurd hx (by decide), fun hx => absurd hx.1 (by linarith)⟩,
           ⟨fun hx => absurd hx (by decide), fun hx => absurd hx.1 (by linarith)⟩,
           ⟨fun hx => absurd hx (by decide), fun hx => absurd hx (by linarith)⟩,
           ⟨fun hx => absurd hx (by decide), fun hx => absurd hx (by linarith)⟩⟩
  · obtain ⟨a2, b2⟩ := h2
    exact ⟨⟨fun hx => absurd hx (by decide), fun hx => absurd hx.2 (by linarith)⟩,
           ⟨fun _ => ⟨a2, b2⟩, fun _ => rfl⟩,
           ⟨fun hx => absurd hx (by decide), fun hx => absurd hx.1 (by linarith)⟩,
           ⟨fun hx => absurd hx (by decide), fun hx => absurd hx.1 (by linarith)⟩,
           ⟨fun hx => absurd hx (by decide), fun hx => absurd hx (by linarith)⟩,
           ⟨fun hx => absurd hx (by decide), fun hx => absurd hx (by linarith)⟩⟩
  · obtain ⟨a3, b3⟩ := h3
    exact ⟨⟨fun hx => absurd hx (by decide), fun hx => absurd hx.2 (by linarith)⟩,
           ⟨fun hx => absurd hx (by decide), fun hx => absurd hx.2 (by linarith)⟩,
           ⟨fun _ => ⟨a3, b3⟩, fun _ => rfl⟩,
           ⟨fun hx => absurd hx (by decide), fun hx => absurd hx.1 (by linarith)⟩,
           ⟨fun hx => absurd hx (by decide), fun hx => absurd hx (by linarith)⟩,
           ⟨fun hx => absurd hx (by decide), fun hx => absurd hx (by linarith)⟩⟩
  · obtain ⟨a4, b4⟩ := h4
    exact ⟨⟨fun hx => absurd hx (by decide), fun hx => absurd hx.2 (by linarith)⟩,
           ⟨fun hx => absurd hx (by decide), fun hx => absurd hx.2 (by linarith)⟩,
           ⟨fun hx => absurd hx (by decide), fun hx => absurd hx.2 (by linarith)⟩,
           ⟨fun _ => ⟨a4, b4⟩, fun _ => rfl⟩,
           ⟨fun hx => absurd hx (by decide), fun hx => absurd hx (by linarith)⟩,
           ⟨fun hx => absurd hx (by decide), fun hx => absurd hx (by linarith)⟩⟩
  · exact ⟨⟨fun hx => absurd hx (by decide), fun hx => absurd hx.2 (by linarith)⟩,
           ⟨fun hx => absurd hx (by decide), fun hx => absurd hx.2 (by linarith)⟩,
           ⟨fun hx => absurd hx (by decide), fun hx => absurd hx.2 (by linarith)⟩,
           ⟨fun hx => absurd hx (by decide), fun hx => absurd hx.2 (by linarith)⟩,
           ⟨fun _ => h5, fun _ => rfl⟩,
           ⟨fun hx => absurd hx (by decide), fun hx => absurd hx (by linarith)⟩⟩
  · have e5 : c < 400000000 := not_le.mp h5
    have e4 : c < 300000000 := by
      by_contra hc
      exact h4 ⟨le_of_not_lt hc, e5⟩
    have e3 : c < 200000000 := by
      by_contra hc
      exact h3 ⟨le_of_not_lt hc, e4⟩
    have e2 : c < 100000000 := by
      by_contra hc
      exact h2 ⟨le_of_not_lt hc, e3⟩
    have e1 : c < 50000000 := by
      by_contra hc
      exact h1 ⟨le_of_not_lt hc, e2⟩
    exact ⟨⟨fun hx => absurd hx (by decide), fun hx => absurd hx.1 (by linarith)⟩,
           ⟨fun hx => absurd hx (by decide), fun hx => absurd hx.1 (by linarith)⟩,
           ⟨fun hx => absurd hx (by decide), fun hx => absurd hx.1 (by linarith)⟩,
           ⟨fun hx => absurd hx (by decide), fun hx => absurd hx.1 (by linarith)⟩,
           ⟨fun hx => absurd hx (by decide), fun hx => absurd hx (by linarith)⟩,
           ⟨fun _ => e1, fun _ => rfl⟩⟩

/-- Claim C2: the layer-group assignment conditionals classify every cost
value exactly as `get_color` does — the record lands in the band layer whose
color `get_color` chose, or in no layer exactly when the color is the
unclassified lightgrey, so display color and containing layer never
disagree. -/
theorem assignGroup_agrees_get_color (c : ℚ) :
    (get_color c =
      match assignGroup c with
      | some b => bandColor b
      | none => "lightgrey") ∧
    (assignGroup c = none ↔ get_color c = "lightgrey") := by
  unfold get_color assignGroup
  split_ifs <;> simp [bandColor]

/-- Claim C3: `extract_coordinates` searches the input for the parenthesized
decimal-pair pattern; the first captured number becomes latitude and the
second longitude, and any input with no match yields `(None, None)` rather
than an error. In particular `"(11.55, 124.73)"` gives `(11.55, 124.73)` and
`"Unknown"` gives `(None, None)`. -/
theorem extract_coordinates_spec :
    (∀ (s : String) (g1 g2 : List Char), searchCoord s.data = some (g1, g2) →
        extract_coordinates s = (some (pyFloat g1), some (pyFloat g2))) ∧
    (∀ s : String, searchCoord s.data = none → extract_coordinates s = (none, none)) ∧
    extract_coordinates ("(11.55, 124.73)") =
      (some ((231 : ℚ) / 20), some ((12473 : ℚ) / 100)) ∧
    extract_coordinates ("Unknown") = (none, none) := by
  refine ⟨?_, ?_, ?_, ?_⟩
  · intro s g1 g2 h
    simp [extract_coordinates, h]
  · intro s h
    simp [extract_coordinates, h]
  · have h : searchCoord ("(11.55, 124.73)").data =
        some ([ '1', '1', '.', '5', '5'], [ '1', '2', '4', '.', '7', '3']) := by decide
    have h1 : pyFloat [ '1', '1', '.', '5', '5'] = (231 : ℚ) / 20 := by
      have hd : digitsVal [ '1', '1'] = 11 := by decide
      have hf : digitsVal [ '5', '5'] = 55 := by decide
      simp [pyFloat, pyFloatAbs, List.dropWhile, List.takeWhile, hd, hf]
      norm_num
    have h2 : pyFloat [ '1', '2', '4', '.', '7', '3'] = (12473 : ℚ) / 100 := by
      have hd : digitsVal [ '1', '2', '4'] = 124 := by decide
      have hf : digitsVal [ '7', '3'] = 73 := by decide
      simp [pyFloat, pyFloatAbs, List.dropWhile, List.takeWhile, hd, hf]
      norm_num
    simp [extract_coordinates, h, h1, h2]
  · have h : searchCoord ("Unknown").data = none := by decide
    simp [extract_coordinates, h]

/-- Witness for C3 at concrete inputs: a matching and a non-matching string. -/
theorem extract_coordinates_spec_witness :
    extract_coordinates ("(10.5,123.0)") =
      (some (pyFloat [ '1', '0', '.', '5']), some (pyFloat [ '1', '2', '3', '.', '0'])) ∧
    extract_coordinates ("abc") = (none, none) :=
  ⟨extract_coordinates_spec.1 ("(10.5,123.0)")
      [ '1', '0', '.', '5'] [ '1', '2', '3', '.', '0'] (by decide),
   extract_coordinates_spec.2.1 ("abc") (by decide)⟩

/-- Claim C4: cost parsing removes commas and the peso sign and parses the
rest numerically; any string that is not numeric after stripping — the empty
string included — coerces to 0, and a record is never dropped on account of
its cost text. `"₱1,234,567.00"` parses to 1234567. -/
theorem parseCost_spec :
    parseCost (stripCostText ("₱1,234,567.00")) = 1234567 ∧
    parseCost (stripCostText ("")) = 0 ∧
    (∀ s : String, pyIsDigitStr (removeFirstDot (stripCostText s).data) = false →
        parseCost (stripCostText s) = 0) ∧
    (∀ (name : String) (card : RawCard) (t : Option String),
        (processRow ⟨name, some card⟩).isSome =
          (processRow ⟨name, some { card with cost_tag := t }⟩).isSome) := by
  refine ⟨?_, ?_, ?_, ?_⟩
  · have hstrip : stripCostText ("₱1,234,567.00") = ("1234567.00") := by decide
    rw [hstrip]
    have hchk : pyIsDigitStr (removeFirstDot ("1234567.00").data) = true := by decide
    have hdata : ("1234567.00").data = [ '1', '2', '3', '4', '5', '6', '7', '.', '0', '0'] := by
      decide
    have hd : digitsVal [ '1', '2', '3', '4', '5', '6', '7'] = 1234567 := by decide
    have hf : digitsVal [ '0', '0'] = 0 := by decide
    rw [parseCost, if_pos hchk, hdata]
    simp [pyFloat, pyFloatAbs, List.dropWhile, List.takeWhile, hd, hf]
  · have hstrip : stripCostText ("") = ("") := by decide
    rw [hstrip]
    have hchk : pyIsDigitStr (removeFirstDot ("").data) = false := by decide
    simp [parseCost, hchk]
  · intro s h
    simp [parseCost, h]
  · intro name card t
    obtain ⟨lt, ct, cst, st⟩ := card
    have hloc : locationString ⟨lt, ct, t, st⟩ = locationString ⟨lt, ct, cst, st⟩ := rfl
    simp only [processRow, hloc]
    rcases hx : extract_coordinates (locationString ⟨lt, ct, cst, st⟩) with ⟨o1, o2⟩
    rcases o1 with _ | la <;> rcases o2 with _ | lo <;> simp

/-- Witness for C4: a malformed string coerces to 0, and changing the cost
text of a concrete row does not change whether its record is kept. -/
theorem parseCost_spec_witness :
    parseCost (stripCostText ("abc")) = 0 ∧
    (processRow ⟨("T"), some ⟨some ("(1.0, 2.0)"), none, none, none⟩⟩).isSome =
      (processRow ⟨("T"), some ⟨some ("(1.0, 2.0)"), none, some ("₱x"), none⟩⟩).isSome :=
  ⟨parseCost_spec.2.2.1 ("abc") (by decide),
   parseCost_spec.2.2.2 ("T") ⟨some ("(1.0, 2.0)"), none, none, none⟩ (some ("₱x"))⟩

/-- Claim C5: every record that reaches the output sequence (hence export and
map) has resolved coordinates; a row whose location text fails coordinate
extraction contributes nothing, and the output preserves document order. -/
theorem extractProjects_spec :
    (∀ (row : RawRow) (card : RawCard), row.template = some card →
        extract_coordinates (locationString card) = (none, none) → processRow row = none) ∧
    (∀ (row : RawRow) (p : ProjectRecord), processRow row = some p →
        ∃ card, row.template = some card ∧
          extract_coordinates (locationString card) = (some p.latitude, some p.longitude)) ∧
    (∀ (rows : List RawRow) (r : ProjectRecord),
        r ∈ extractProjects rows ↔ ∃ row ∈ rows, processRow row = some r) ∧
    (∀ xs ys : List RawRow,
        extractProjects (xs ++ ys) = extractProjects xs ++ extractProjects ys) := by
  refine ⟨?_, ?_, ?_, ?_⟩
  · intro row card hc hx
    simp [processRow, hc, hx]
  · intro row p hp
    rcases row with ⟨name, tmpl⟩
    cases tmpl with
    | none => simp [processRow] at hp
    | some card =>
      refine ⟨card, rfl, ?_⟩
      rcases hx : extract_coordinates (locationString card) with ⟨o1, o2⟩
      rcases o1 with _ | la
      · simp [processRow, hx] at hp
      · rcases o2 with _ | lo
        · simp [processRow, hx] at hp
        · simp only [processRow, hx] at hp
          injection hp with hp
          subst hp
          simp [hx]
  · intro rows r
    simp [extractProjects, List.mem_filterMap]
  · intro xs ys
    simp [extractProjects, List.filterMap_append]

/-- Witness for C5: a concrete row whose location text has no coordinate
pair is dropped. -/
theorem extractProjects_spec_witness :
    processRow ⟨("T"), some ⟨some ("Unknown"), none, none, none⟩⟩ = none :=
  extractProjects_spec.1 ⟨("T"), some ⟨some ("Unknown"), none, none, none⟩⟩
    ⟨some ("Unknown"), none, none, none⟩ rfl (by decide)

/-- A non-empty record list exports as the fixed header row followed by one
row per record in order. -/
lemma exportTable_ne_nil (ps : List ProjectRecord) (h : ps ≠ []) :
    exportTable ps = headerRow :: ps.map recordRow := by
  rw [exportTable, if_neg]
  simp [h]

/-- Counterexample to claim C6 as stated: on an input yielding zero matched
records the DataFrame has no columns, so the exported sheet contains no
header row at all. -/
theorem exportTable_empty_counterexample :
    exportTable [] = [] ∧ headerRow ∉ exportTable [] := by
  refine ⟨rfl, ?_⟩
  rw [(rfl : exportTable [] = [])]
  exact List.not_mem_nil headerRow

/-- Claim C6 (amended): for every input document yielding at least one
matched record, the exported spreadsheet is the fixed header row `Title,
Contractor, Start Date, Cost, Latitude, Longitude, Location` followed by one
row per record with direct field mapping; with zero records the sheet is
empty and has no header. -/
theorem exportTable_spec (ps : List ProjectRecord) (h : ps ≠ []) :
    exportTable ps = headerRow :: ps.map recordRow :=
  exportTable_ne_nil ps h

/-- Witness for C6 (amended) at a one-record list. -/
theorem exportTable_spec_witness :
    exportTable [⟨("Road Widening"), ("N/A"), ("Unknown"), 75000000, 10, 123,
        ("(10.0, 123.0)")⟩] =
      headerRow :: List.map recordRow
        [⟨("Road Widening"), ("N/A"), ("Unknown"), 75000000, 10, 123,
          ("(10.0, 123.0)")⟩] :=
  exportTable_spec
    [⟨("Road Widening"), ("N/A"), ("Unknown"), 75000000, 10, 123, ("(10.0, 123.0)")⟩]
    (by simp)

/-- Claim C7: a record with cost below 50M is present in the export but is
assigned to no band layer, so it contributes no marker to the map; each band
layer holds exactly the markers of the records assigned to that band, and a
record with cost at least 50M is assigned to exactly one band. -/
theorem markers_spec (ps : List ProjectRecord) :
    (∀ b, buildGroups ps b =
        (ps.filter (fun q => decide (assignGroup q.cost = some b))).map mkMarker) ∧
    (∀ p, p ∈ ps → p.cost < 50000000 →
        recordRow p ∈ exportTable ps ∧ assignGroup p.cost = none) ∧
    (∀ p, p ∈ ps → 50000000 ≤ p.cost →
        ∃ b, assignGroup p.cost = some b ∧
          ∀ b2, assignGroup p.cost = some b2 → b2 = b) := by
  refine ⟨buildGroups_eq ps, ?_, ?_⟩
  · intro p hp hc
    constructor
    · have hne : ps ≠ [] := by
        rintro rfl
        simp at hp
      rw [exportTable_ne_nil ps hne]
      exact List.mem_cons_of_mem _ (List.mem_map_of_mem recordRow hp)
    · rw [assignGroup]
      split_ifs with g1 g2 g3 g4 g5
      · exact absurd g1.1 (by linarith)
      · exact absurd g2.1 (by linarith)
      · exact absurd g3.1 (by linarith)
      · exact absurd g4.1 (by linarith)
      · exact absurd g5 (by linarith)
      · rfl
  · intro p hp hc
    rw [assignGroup]
    split_ifs with g1 g2 g3 g4 g5
    · exact ⟨.b50, rfl, fun b2 e => (Option.some.inj e).symm⟩
    · exact ⟨.b100, rfl, fun b2 e => (Option.some.inj e).symm⟩
    · exact ⟨.b200, rfl, fun b2 e => (Option.some.inj e).symm⟩
    · exact ⟨.b300, rfl, fun b2 e => (Option.some.inj e).symm⟩
    · exact ⟨.b400, rfl, fun b2 e => (Option.some.inj e).symm⟩
    · exfalso
      have e5 : p.cost < 400000000 := not_le.mp g5
      have e4 : p.cost < 300000000 := by
        by_contra hcc
        exact g4 ⟨le_of_not_lt hcc, e5⟩
      have e3 : p.cost < 200000000 := by
        by_contra hcc
        exact g3 ⟨le_of_not_lt hcc, e4⟩
      have e2 : p.cost < 100000000 := by
        by_contra hcc
        exact g2 ⟨le_of_not_lt hcc, e3⟩
      exact g1 ⟨hc, e2⟩

/-- Witness for C7: a below-50M record is exported yet unassigned; a 75M
record is assigned to exactly one band. -/
theorem markers_spec_witness :
    (recordRow ⟨("A"), ("N/A"), ("U"), 1000, 1, 2, ("L")⟩ ∈
        exportTable [⟨("A"), ("N/A"), ("U"), 1000, 1, 2, ("L")⟩] ∧
      assignGroup (1000 : ℚ) = none) ∧
    (∃ b, assignGroup (75000000 : ℚ) = some b ∧
        ∀ b2, assignGroup (75000000 : ℚ) = some b2 → b2 = b) :=
  ⟨(markers_spec [⟨("A"), ("N/A"), ("U"), 1000, 1, 2, ("L")⟩]).2.1
      ⟨("A"), ("N/A"), ("U"), 1000, 1, 2, ("L")⟩ (by simp)
      ((by norm_num : (1000 : ℚ) < 50000000)),
   (markers_spec [⟨("B"), ("N/A"), ("U"), 75000000, 1, 2, ("L")⟩]).2.2
      ⟨("B"), ("N/A"), ("U"), 75000000, 1, 2, ("L")⟩ (by simp)
      ((by norm_num : (50000000 : ℚ) ≤ 75000000))⟩

/-- The unsigned decimal value is never negative. -/
lemma pyFloatAbs_nonneg (t : List Char) : 0 ≤ pyFloatAbs t := by
  rw [pyFloatAbs]
  cases h : t.dropWhile (fun c => decide (c ≠ '.')) with
  | nil => positivity
  | cons hd frac => positivity

/-- When the `isdigit` check passes, the string starts with no minus sign,
so its float value is the non-negative unsigned value. -/
lemma pyFloat_nonneg_of_check (l : List Char)
    (h : pyIsDigitStr (removeFirstDot l) = true) : 0 ≤ pyFloat l := by
  cases l with
  | nil => exact pyFloatAbs_nonneg []
  | cons c u =>
    rw [pyFloat]
    split_ifs with hneg hplus
    · exfalso
      subst hneg
      simp [removeFirstDot, pyIsDigitStr] at h
    · exact pyFloatAbs_nonneg u
    · exact pyFloatAbs_nonneg (c :: u)

/-- Parsed costs are never negative. -/
lemma parseCost_nonneg (s : String) : 0 ≤ parseCost s := by
  rw [parseCost]
  split_ifs with h
  · exact pyFloat_nonneg_of_check s.data h
  · exact le_refl 0

/-- A character other than the period survives the removal of the first
period. -/
lemma mem_removeFirstDot (l : List Char) (c : Char) (hne : c ≠ '.') (hm : c ∈ l) :
    c ∈ removeFirstDot l := by
  induction l with
  | nil => exact absurd hm (List.not_mem_nil c)
  | cons a as ih =>
    rw [removeFirstDot]
    by_cases ha : a = '.'
    · subst ha
      rw [if_pos rfl]
      rcases List.mem_cons.mp hm with h1 | h2
      · exact absurd h1 hne
      · exact h2
    · rw [if_neg ha]
      rcases List.mem_cons.mp hm with h1 | h2
      · exact h1 ▸ List.mem_cons_self _ _
      · exact List.mem_cons_of_mem _ (ih h2)

/-- Claim C8: parsed costs are non-negative — the numeric check rejects any
string containing a minus sign, coercing it to 0 — so every record ever
created has a non-negative cost. -/
theorem cost_nonneg_spec :
    (∀ s : String, 0 ≤ parseCost s) ∧
    (∀ s : String, ('-') ∈ s.data → parseCost s = 0) ∧
    (∀ (row : RawRow) (p : ProjectRecord), processRow row = some p → 0 ≤ p.cost) := by
  refine ⟨parseCost_nonneg, ?_, ?_⟩
  · intro s hmem
    have h1 : ('-') ∈ removeFirstDot s.data := mem_removeFirstDot _ _ (by decide) hmem
    have hall : ¬ ((removeFirstDot s.data).all Char.isDigit = true) := by
      intro hall
      have hdig := List.all_eq_true.mp hall _ h1
      exact absurd hdig (by decide)
    have hch : pyIsDigitStr (removeFirstDot s.data) = false := by
      rw [pyIsDigitStr]
      cases ha : (removeFirstDot s.data).all Char.isDigit
      · simp
      · exact absurd ha hall
    rw [parseCost, if_neg]
    simp [hch]
  · intro row p hp
    rcases row with ⟨name, tmpl⟩
    cases tmpl with
    | none => simp [processRow] at hp
    | some card =>
      rcases hx : extract_coordinates (locationString card) with ⟨o1, o2⟩
      rcases o1 with _ | la
      · simp [processRow, hx] at hp
      · rcases o2 with _ | lo
        · simp [processRow, hx] at hp
        · simp only [processRow, hx] at hp
          injection hp with hp
          subst hp
          exact parseCost_nonneg (costStrOf card)

/-- Witness for C8: a minus-signed string parses to 0, and the record built
from a concrete row has non-negative cost. -/
theorem cost_nonneg_spec_witness :
    parseCost ("-5") = 0 ∧
    (0 : ℚ) ≤ (⟨("T"), ("N/A"), ("Unknown"),
        parseCost (costStrOf ⟨some ("(1.0, 2.0)"), none, none, none⟩),
        pyFloat [ '1', '.', '0'], pyFloat [ '2', '.', '0'],
        ("(1.0, 2.0)")⟩ : ProjectRecord).cost :=
  ⟨cost_nonneg_spec.2.1 ("-5") (by decide),
   cost_nonneg_spec.2.2 ⟨("T"), some ⟨some ("(1.0, 2.0)"), none, none, none⟩⟩ _ rfl⟩

/-- Claim C9: when the template of a matched row lacks an optional sub-field, no
error is raised and the field-specific default applies — contractor
`"N/A"`, start date `"Unknown"`, cost text `"0"` (hence cost 0), location
text `"Unknown"`. -/
theorem defaults_spec (card : RawCard) :
    (card.contractor_tag = none → contractorOf card = ("N/A")) ∧
    (card.start_date_tag = none → startDateOf card = ("Unknown")) ∧
    (card.cost_tag = none →
        costStrOf card = ("0") ∧ parseCost (costStrOf card) = 0) ∧
    (card.location_tag = none → locationString card = ("Unknown")) := by
  obtain ⟨lt, ct, cst, st⟩ := card
  have h0 : parseCost ("0") = 0 := by
    have hchk : pyIsDigitStr (removeFirstDot ("0").data) = true := by decide
    have hdata : ("0").data = [ '0'] := by decide
    have hd : digitsVal [ '0'] = 0 := by decide
    rw [parseCost, if_pos hchk, hdata]
    simp [pyFloat, pyFloatAbs, List.dropWhile, hd]
  refine ⟨?_, ?_, ?_, ?_⟩ <;> intro h
  · subst h
    rfl
  · subst h
    rfl
  · subst h
    exact ⟨rfl, h0⟩
  · subst h
    rfl

/-- Witness for C9 at the all-defaults template. -/
theorem defaults_spec_witness :
    contractorOf ⟨none, none, none, none⟩ = ("N/A") ∧
    startDateOf ⟨none, none, none, none⟩ = ("Unknown") ∧
    (costStrOf ⟨none, none, none, none⟩ = ("0") ∧
      parseCost (costStrOf ⟨none, none, none, none⟩) = 0) ∧
    locationString ⟨none, none, none, none⟩ = ("Unknown") :=
  ⟨(defaults_spec _).1 rfl, (defaults_spec _).2.1 rfl,
   (defaults_spec _).2.2.1 rfl, (defaults_spec _).2.2.2 rfl⟩

/-- Claim C10: coordinate extraction returns either two numbers or the
double-`None` result, never exactly one `None`; hence testing both
coordinates in the retention filter is equivalent to testing either alone. -/
theorem extract_both_or_neither (s : String) :
    (extract_coordinates s = (none, none) ∨
      ∃ a b, extract_coordinates s = (some a, some b)) ∧
    (((extract_coordinates s).1.isSome && (extract_coordinates s).2.isSome) =
      (extract_coordinates s).1.isSome) ∧
    (((extract_coordinates s).1.isSome && (extract_coordinates s).2.isSome) =
      (extract_coordinates s).2.isSome) := by
  rcases h : searchCoord s.data with _ | ⟨g1, g2⟩
  · refine ⟨Or.inl ?_, ?_, ?_⟩ <;> simp [extract_coordinates, h]
  · refine ⟨Or.inr ⟨pyFloat g1, pyFloat g2, ?_⟩, ?_, ?_⟩ <;>
      simp [extract_coordinates, h]
